import Mathlib

/-!
Verification of the OncoSense risk-scoring service (`src/app.py`).

The embedding is shallow: Python floats are modelled as rationals (`Rat`),
Python ints as `Int`, JSON objects as association lists of string keys to
`PyVal` values.  `float(v)` is modelled by `pyFloat`, which parses plain
signed decimal literals from strings (the numeric formats exercised by the
service); non-numeric strings, `None` and other unconvertible values yield
`Option.none`, modelling the exception that the source catches.  The
classifier model invocation (Keras) is external to the repository, so the
`predict` handler takes the outcome of that invocation as an explicit
parameter: `Option.none` when the model is absent, `some (Except.error e)`
when the invocation raises, `some (Except.ok p)` when it returns `p`.
-/

namespace OncoSense

/-- A Python/JSON value as it can appear in a request body. -/
inductive PyVal where
  | pint (n : Int)
  | pfloat (q : Rat)
  | pbool (b : Bool)
  | pstr (s : String)
  | pnone
deriving DecidableEq, Repr

/-- A JSON object / Python dict, keys unique. -/
def Dict := List (String × PyVal)

/-- Whitespace characters stripped by Python's `float(str)`. -/
def isSpaceChar (c : Char) : Bool :=
  c = ' ' ∨ c = '\t' ∨ c = '\n' ∨ c = '\r'

/-- Value of a digit string, most significant first. -/
def digitsVal (cs : List Char) : Nat :=
  cs.foldl (fun a c => a * 10 + (c.toNat - 48)) 0

/-- Model of `float(s)` on a string: an optionally signed plain decimal
literal (surrounding whitespace stripped); anything else raises, modelled
as `Option.none`. -/
def parseDecimal (s : String) : Option Rat :=
  let cs := ((s.toList.dropWhile isSpaceChar).reverse.dropWhile isSpaceChar).reverse
  let sgn : Int := match cs with
    | '-' :: _ => -1
    | _ => 1
  let body : List Char := match cs with
    | '-' :: r => r
    | '+' :: r => r
    | r => r
  let ip := body.takeWhile Char.isDigit
  let rest := body.dropWhile Char.isDigit
  match rest with
  | [] =>
      if ip.isEmpty then Option.none
      else some (mkRat (sgn * (digitsVal ip : Int)) 1)
  | '.' :: fp =>
      if fp.all Char.isDigit ∧ ¬ (ip.isEmpty ∧ fp.isEmpty) then
        some (mkRat (sgn * ((digitsVal ip * 10 ^ fp.length + digitsVal fp : Nat) : Int))
          (10 ^ fp.length))
      else Option.none
  | _ => Option.none

/-- Model of Python `float(v)`: numbers and booleans convert, strings are
parsed as decimal literals, everything else raises (`Option.none`). -/
def pyFloat : PyVal → Option Rat
  | .pint n => some (n : Rat)
  | .pfloat q => some q
  | .pbool b => some (if b then 1 else 0)
  | .pstr s => parseDecimal s
  | .pnone => Option.none

/-- Model of Python `int(q)` on a float: truncation toward zero.  Since a
`Rat` has positive denominator, this is t-division of numerator by
denominator. -/
def truncRat (q : Rat) : Int :=
  Int.tdiv q.num (q.den : Int)

/-- Floor of a rational, via flooring division of numerator by denominator
(kernel-evaluable form of `Int.floor`). -/
def ratFloor (q : Rat) : Int :=
  Int.fdiv q.num (q.den : Int)

/-- Function `geti(d, k, default)` from `src/app.py`: `int(float(d.get(k, default)))`
with any exception resolving to `default`. -/
def geti (d : Dict) (k : String) (default : Int) : Int :=
  match List.lookup k d with
  | some v =>
      match pyFloat v with
      | some q => truncRat q
      | Option.none => default
  | Option.none => default

/-- Function `getf(d, k, default)` from `src/app.py`: `float(d.get(k, default))`
with any exception resolving to `default`. -/
def getf (d : Dict) (k : String) (default : Rat) : Rat :=
  match List.lookup k d with
  | some v => (pyFloat v).getD default
  | Option.none => default

/-- Function `clamp01(x)` from `src/app.py`. -/
def clamp01 (x : Rat) : Rat :=
  if x < 0 then 0 else if x > 1 then 1 else x

/-- Function `grade(p)` from `src/app.py` (thresholds 0.66 / 0.33 as in the code). -/
def grade (p : Rat) : String :=
  if p ≥ 66/100 then "High"
  else if p ≥ 33/100 then "Medium"
  else "Low"

/-- Function `temp_component(temp_c)` from `src/app.py`. -/
def temp_component (temp_c : Rat) : Rat :=
  if temp_c < 38 then 0
  else if temp_c < 39 then 18/100
  else if temp_c < 40 then 30/100
  else 45/100

/-- Function `pulse_component(pulse)` from `src/app.py`. -/
def pulse_component (pulse : Int) : Rat :=
  if pulse ≥ 120 then 25/100
  else if pulse ≥ 100 then 15/100
  else if pulse ≥ 90 then 5/100
  else 0

/-- The `contrib` dict built by `rule_based_prob`, one field per key in
insertion order. -/
structure Contrib where
  temperature : Rat
  fever_flag : Rat
  pallor : Rat
  bruises : Rat
  weight_loss : Rat
  pulse : Rat
  young_age : Rat
  fatigue : Rat
  night_sweats : Rat
  infections : Rat
  bone_pain : Rat
deriving DecidableEq, Repr

/-- Sum `sum(contrib.values())` in `rule_based_prob`. -/
def Contrib.total (c : Contrib) : Rat :=
  c.temperature + c.fever_flag + c.pallor + c.bruises + c.weight_loss +
    c.pulse + c.young_age + c.fatigue + c.night_sweats + c.infections + c.bone_pain

/-- The contribution table computed by `rule_based_prob` in `src/app.py`:
each named weight, never individually clamped. -/
def rule_based_contrib (age fever : Int) (temp_c : Rat)
    (pulse pallor bruises wloss fatigue nsweats infections bone : Int) : Contrib :=
  { temperature := temp_component temp_c
    fever_flag := 5/100 * (fever : Rat)
    pallor := 20/100 * (pallor : Rat)
    bruises := 20/100 * (bruises : Rat)
    weight_loss := 20/100 * (wloss : Rat)
    pulse := pulse_component pulse
    young_age := if age ≤ 6 then 5/100 else 0
    fatigue := 5/100 * (fatigue : Rat)
    night_sweats := 5/100 * (nsweats : Rat)
    infections := 10/100 * (infections : Rat)
    bone_pain := 15/100 * (bone : Rat) }

/-- Function `rule_based_prob` from `src/app.py`: the clamped total together with the
contribution table (`{"prob": prob, **{f"w_\x7bk\x7d": v ...}}`). -/
def rule_based_prob (age fever : Int) (temp_c : Rat)
    (pulse pallor bruises wloss fatigue nsweats infections bone : Int) :
    Rat × Contrib :=
  let c := rule_based_contrib age fever temp_c pulse pallor bruises wloss fatigue nsweats infections bone
  (clamp01 c.total, c)

/-- Round half to even at integer precision (Python's `round`). -/
def rhe (q : Rat) : Int :=
  if q - ratFloor q < 1/2 then ratFloor q
  else if q - ratFloor q > 1/2 then ratFloor q + 1
  else if ratFloor q % 2 = 0 then ratFloor q else ratFloor q + 1

/-- Python `round(q, 4)` as used on the response probabilities. -/
def round4 (q : Rat) : Rat :=
  (rhe (q * 10000) : Rat) / 10000

/-- The JSON verdict returned by `/predict`, with the HTTP status. -/
structure Verdict where
  risk : Rat
  class_name : String
  used_model : Option String
  model_prob : Option Rat
  details : Option Contrib
  status : Nat
deriving DecidableEq, Repr

/-- Line 120 of `src/app.py`: the temperature used for scoring,
`getf(data, "fever_temp_c", getf(data, "temperature_c", 0.0))`. -/
def tempUsed (data : Dict) : Rat :=
  getf data "fever_temp_c" (getf data "temperature_c" 0)

/-- Lines 121-123 of `src/app.py`: the fever flag used for scoring —
`geti(data, "fever", 0)`, overridden by the temperature-derived rule only
when the `fever` key is absent and the temperature is positive. -/
def feverUsed (data : Dict) : Int :=
  let fever := geti data "fever" 0
  if List.lookup "fever" data = Option.none ∧ tempUsed data > 0 then
    (if tempUsed data ≥ 38 then 1 else 0)
  else fever

/-- The contribution table the heuristic branch of `predict` computes for a
request body, after feature extraction (lines 119-134, 158). -/
def heurContrib (data : Dict) : Contrib :=
  rule_based_contrib (geti data "age" 8) (feverUsed data) (tempUsed data)
    (geti data "pulse" 90) (geti data "pallor" 0) (geti data "bruises" 0)
    (geti data "weight_loss" 0) (geti data "fatigue" 0)
    (geti data "night_sweats" 0) (geti data "frequent_infections" 0)
    (geti data "bone_pain" 0)

/-- Lines 137-147 of `src/app.py`: the `model_prob` local after the
guarded, exception-catching classifier invocation.  `outcome` is
`Option.none` when the model is absent (`MODEL_KIND != "leukemia_h5"` or
`LEUK_MODEL is None`), `some (Except.error e)` when `LEUK_MODEL.predict`
raises (caught, leaving `model_prob = None`), `some (Except.ok p)` on
success. -/
def modelProbOf (outcome : Option (Except String Rat)) : Option Rat :=
  match outcome with
  | some (Except.ok p) => some p
  | _ => Option.none

/-- Lines 148-155 of `src/app.py`: the response built on the classifier
path, nudging the model probability with advanced symptoms. -/
def classifierVerdict (data : Dict) (base_prob : Rat) : Verdict :=
  let adj := 5/100 * (geti data "fatigue" 0 : Rat) +
    5/100 * (geti data "night_sweats" 0 : Rat) +
    10/100 * (geti data "frequent_infections" 0 : Rat) +
    15/100 * (geti data "bone_pain" 0 : Rat) +
    temp_component (tempUsed data) * (25/100)
  let prob := clamp01 (base_prob + adj)
  { risk := round4 prob
    class_name := grade prob
    used_model := some "leukemia_h5"
    model_prob := some (round4 base_prob)
    details := Option.none
    status := 200 }

/-- Lines 157-166 of `src/app.py`: the response built on the rule-based
path. -/
def heuristicVerdict (data : Dict) : Verdict :=
  let rb := rule_based_prob (geti data "age" 8) (feverUsed data) (tempUsed data)
    (geti data "pulse" 90) (geti data "pallor" 0) (geti data "bruises" 0)
    (geti data "weight_loss" 0) (geti data "fatigue" 0)
    (geti data "night_sweats" 0) (geti data "frequent_infections" 0)
    (geti data "bone_pain" 0)
  { risk := round4 rb.1
    class_name := grade rb.1
    used_model := Option.none
    model_prob := Option.none
    details := some rb.2
    status := 200 }

/-- The `/predict` handler (lines 115-166 of `src/app.py`): classifier
path when the (guarded) model invocation produced a probability, rule-based
path otherwise. -/
def predict (data : Dict) (outcome : Option (Except String Rat)) : Verdict :=
  match modelProbOf outcome with
  | some base_prob => classifierVerdict data base_prob
  | Option.none => heuristicVerdict data


theorem ratFloor_eq_floor (q : Rat) : ratFloor q = ⌊q⌋ := by
  rw [ratFloor, Rat.floor_def, Int.fdiv_eq_ediv _ (by positivity)]

theorem clamp01_nonneg (x : Rat) : 0 ≤ clamp01 x := by
  unfold clamp01; split_ifs <;> linarith

theorem clamp01_le_one (x : Rat) : clamp01 x ≤ 1 := by
  unfold clamp01; split_ifs <;> linarith

/-- C6: the temperature contribution as the spec states it, interval by
interval. -/
def temp_component_spec (t : Rat) : Rat :=
  if t < 38 then 0
  else if 38 ≤ t ∧ t < 39 then 18/100
  else if 39 ≤ t ∧ t < 40 then 30/100
  else 45/100

/-- C6: for every temperature value, the temperature contribution equals the
step function 0 below 38, 0.18 on [38,39), 0.30 on [39,40), 0.45 from 40 on. -/
theorem C6_temp_component_step :
    ∀ t : Rat, temp_component t = temp_component_spec t := by
  intro t
  by_cases h1 : t < 38
  · simp [temp_component, temp_component_spec, h1]
  · by_cases h2 : t < 39
    · have h38 : 38 ≤ t := not_lt.mp h1
      simp [temp_component, temp_component_spec, h1, h2, h38]
    · by_cases h3 : t < 40
      · have h39 : 39 ≤ t := not_lt.mp h2
        simp [temp_component, temp_component_spec, h1, h2, h3, h39]
      · simp [temp_component, temp_component_spec, h1, h2, h3]

/-- C1 counterexample: at probability 0.70 the code labels High although
0.70 < 0.72, refuting the claimed 0.72 threshold. -/
theorem C1_thresholds_counterexample :
    grade (7/10) = "High" ∧ ¬ ((7:Rat)/10 ≥ 72/100) := by
  constructor
  · unfold grade; norm_num
  · norm_num

/-- C1 (amended): the severity label is computed from the thresholds of the
code, 0.66 and 0.33: High iff p ≥ 0.66, Medium iff 0.33 ≤ p < 0.66, Low iff
p < 0.33. -/
theorem C1_grade_thresholds (p : Rat) :
    (grade p = "High" ↔ p ≥ 66/100) ∧
    (grade p = "Medium" ↔ 33/100 ≤ p ∧ p < 66/100) ∧
    (grade p = "Low" ↔ p < 33/100) := by
  unfold grade
  split_ifs with h1 h2 <;>
    refine ⟨?_, ?_, ?_⟩ <;> simp_all <;> linarith

/-- C7: both step components are monotone non-decreasing, and the pulse
contribution is zero below 90 bpm. -/
theorem C7_components_monotone :
    (∀ x y : Int, x ≤ y → pulse_component x ≤ pulse_component y) ∧
    (∀ x y : Rat, x ≤ y → temp_component x ≤ temp_component y) ∧
    (∀ p : Int, p < 90 → pulse_component p = 0) := by
  refine ⟨?_, ?_, ?_⟩
  · intro x y hxy
    unfold pulse_component
    split_ifs <;> first | (exfalso; omega) | norm_num
  · intro x y hxy
    unfold temp_component
    split_ifs <;> first | (exfalso; linarith) | norm_num
  · intro p hp
    unfold pulse_component
    split_ifs <;> first | rfl | omega

theorem C7_witness :
    pulse_component 80 ≤ pulse_component 130 ∧
    temp_component 37 ≤ temp_component 39 ∧
    pulse_component 80 = 0 :=
  ⟨C7_components_monotone.1 80 130 (by norm_num),
   C7_components_monotone.2.1 37 39 (by norm_num),
   C7_components_monotone.2.2 80 (by norm_num)⟩


/-- C5 counterexample: the affirmative string "yes" is not accepted as true —
`geti` resolves it to the field default 0, not to 1. -/
theorem C5_affirmative_counterexample :
    geti [("fever", PyVal.pstr "yes")] "fever" 0 = 0 ∧
    geti [("fever", PyVal.pstr "yes")] "fever" 0 ≠ 1 := by
  constructor <;> decide

/-- C5 (amended): the coercion never raises — it accepts numeric encodings
(the number 1 and the numeric string "1" coerce to 1), while non-numeric
values (including the affirmative strings "yes" and "true" and localized
affirmatives such as "haan") resolve to the field default rather than an
error. -/
theorem C5_coercion_total :
    (∀ d : Int, geti [("fever", PyVal.pint 1)] "fever" d = 1) ∧
    (∀ d : Int, geti [("fever", PyVal.pstr "1")] "fever" d = 1) ∧
    (∀ (v : PyVal) (d : Int), pyFloat v = Option.none →
      geti [("fever", v)] "fever" d = d) ∧
    (∀ (v : PyVal) (q : Rat), pyFloat v = Option.none →
      getf [("fever", v)] "fever" q = q) ∧
    pyFloat (PyVal.pstr "yes") = Option.none ∧
    pyFloat (PyVal.pstr "true") = Option.none ∧
    pyFloat (PyVal.pstr "haan") = Option.none := by
  refine ⟨fun d => ?_, fun d => ?_, fun v d h => ?_, fun v q h => ?_, ?_, ?_, ?_⟩
  · rfl
  · rfl
  · simp [geti, List.lookup, h]
  · simp [getf, List.lookup, h]
  · decide
  · decide
  · decide

theorem C5_coercion_total_witness :
    geti [("fever", PyVal.pstr "yes")] "fever" 7 = 7 ∧
    getf [("fever", PyVal.pnone)] "fever" (1/2) = 1/2 :=
  ⟨C5_coercion_total.2.2.1 (PyVal.pstr "yes") 7 (by decide),
   C5_coercion_total.2.2.2.1 PyVal.pnone (1/2) rfl⟩

/-- C4: when the request supplies an explicit fever field, the fever flag
used for scoring is that (coerced) supplied value, not the
temperature-derived one; in particular with fever:false and
fever_temp_c:39.0 the flag used is 0. -/
theorem C4_fever_precedence :
    (∀ (data : Dict) (v : PyVal), List.lookup "fever" data = some v →
      feverUsed data = geti data "fever" 0) ∧
    feverUsed [("fever", PyVal.pbool false), ("fever_temp_c", PyVal.pfloat 39)] = 0 := by
  constructor
  · intro data v h
    simp [feverUsed, h]
  · decide

theorem C4_fever_precedence_witness :
    feverUsed [("fever", PyVal.pbool false), ("fever_temp_c", PyVal.pfloat 39)] =
      geti [("fever", PyVal.pbool false), ("fever_temp_c", PyVal.pfloat 39)] "fever" 0 :=
  C4_fever_precedence.1 _ (PyVal.pbool false) rfl

/-- C10: the temperature used for scoring comes from fever_temp_c when that
key holds a parseable number; temperature_c is consulted only when
fever_temp_c is absent or unparseable; with both keys absent the
temperature is 0 and the temperature contribution is 0. -/
theorem C10_temperature_key_priority :
    (∀ (data : Dict) (v : PyVal) (q : Rat),
      List.lookup "fever_temp_c" data = some v → pyFloat v = some q →
      tempUsed data = q) ∧
    (∀ (data : Dict) (v : PyVal),
      List.lookup "fever_temp_c" data = some v → pyFloat v = Option.none →
      tempUsed data = getf data "temperature_c" 0) ∧
    (∀ data : Dict, List.lookup "fever_temp_c" data = Option.none →
      tempUsed data = getf data "temperature_c" 0) ∧
    (∀ data : Dict, List.lookup "fever_temp_c" data = Option.none →
      List.lookup "temperature_c" data = Option.none →
      tempUsed data = 0 ∧ temp_component (tempUsed data) = 0) := by
  refine ⟨fun data v q h hq => ?_, fun data v h hq => ?_, fun data h => ?_,
    fun data h h' => ?_⟩
  · simp [tempUsed, getf, h, hq]
  · simp [tempUsed, getf, h, hq]
  · simp [tempUsed, getf, h]
  · have h0 : tempUsed data = 0 := by simp [tempUsed, getf, h, h']
    exact ⟨h0, by rw [h0]; norm_num [temp_component]⟩

theorem C10_temperature_key_priority_witness :
    tempUsed [("fever_temp_c", PyVal.pfloat 39), ("temperature_c", PyVal.pfloat 37)] = 39 ∧
    tempUsed [("fever_temp_c", PyVal.pstr "abc"), ("temperature_c", PyVal.pfloat 37)] =
      getf [("fever_temp_c", PyVal.pstr "abc"), ("temperature_c", PyVal.pfloat 37)] "temperature_c" 0 ∧
    tempUsed [("temperature_c", PyVal.pfloat 37)] =
      getf [("temperature_c", PyVal.pfloat 37)] "temperature_c" 0 ∧
    tempUsed [] = 0 ∧ temp_component (tempUsed []) = 0 :=
  ⟨C10_temperature_key_priority.1 _ (PyVal.pfloat 39) 39 rfl rfl,
   C10_temperature_key_priority.2.1 _ (PyVal.pstr "abc") rfl (by decide),
   C10_temperature_key_priority.2.2.1 _ rfl,
   (C10_temperature_key_priority.2.2.2 [] rfl rfl).1,
   (C10_temperature_key_priority.2.2.2 [] rfl rfl).2⟩


theorem rhe_cases (q : Rat) : rhe q = ⌊q⌋ ∨ rhe q = ⌊q⌋ + 1 := by
  simp only [rhe, ratFloor_eq_floor]
  split_ifs <;> simp

theorem le_rhe_of_le (q : Rat) (n : Int) (h : (n : Rat) ≤ q) : n ≤ rhe q := by
  have hf : n ≤ ⌊q⌋ := Int.le_floor.mpr h
  rcases rhe_cases q with h' | h' <;> omega

theorem rhe_le_of_le (q : Rat) (n : Int) (h : q ≤ (n : Rat)) : rhe q ≤ n := by
  have hf : ⌊q⌋ ≤ n := by
    have := Int.floor_le_floor h
    simpa using this
  have hfl : (⌊q⌋ : Rat) ≤ q := Int.floor_le q
  simp only [rhe, ratFloor_eq_floor]
  split_ifs with h1 h2 h3
  · exact hf
  · push_neg at h1
    have hlt : (⌊q⌋ : Rat) < (n : Rat) := by linarith
    have : ⌊q⌋ < n := by exact_mod_cast hlt
    omega
  · exact hf
  · push_neg at h1
    have hlt : (⌊q⌋ : Rat) < (n : Rat) := by linarith
    have : ⌊q⌋ < n := by exact_mod_cast hlt
    omega

theorem round4_mem (q : Rat) (h0 : 0 ≤ q) (h1 : q ≤ 1) :
    0 ≤ round4 q ∧ round4 q ≤ 1 := by
  unfold round4
  have hlo : (0 : Int) ≤ rhe (q * 10000) :=
    le_rhe_of_le _ 0 (by push_cast; linarith)
  have hhi : rhe (q * 10000) ≤ 10000 :=
    rhe_le_of_le _ 10000 (by push_cast; linarith)
  constructor
  · have : (0 : Rat) ≤ (rhe (q * 10000) : Rat) := by exact_mod_cast hlo
    positivity
  · rw [div_le_one (by norm_num)]
    exact_mod_cast hhi

theorem heuristicVerdict_risk (data : Dict) :
    (heuristicVerdict data).risk = round4 (clamp01 (heurContrib data).total) := rfl

theorem classifierVerdict_risk (data : Dict) (b : Rat) :
    ∃ s, (classifierVerdict data b).risk = round4 (clamp01 s) := ⟨_, rfl⟩

/-- C3: on both the heuristic and the classifier path, the probability
returned in the risk field lies in the closed interval from 0 to 1. -/
theorem C3_probability_in_unit_interval (data : Dict)
    (outcome : Option (Except String Rat)) :
    0 ≤ (predict data outcome).risk ∧ (predict data outcome).risk ≤ 1 := by
  have key : ∀ s : Rat, 0 ≤ round4 (clamp01 s) ∧ round4 (clamp01 s) ≤ 1 :=
    fun s => round4_mem _ (clamp01_nonneg s) (clamp01_le_one s)
  unfold predict
  cases h : modelProbOf outcome with
  | none =>
      rw [heuristicVerdict_risk]
      exact key _
  | some b =>
      obtain ⟨s, hs⟩ := classifierVerdict_risk data b
      rw [hs]
      exact key s

/-- C2: whenever the classifier model is absent or its invocation raises,
the predict operation returns a status-200 verdict computed by the
heuristic scorer, with used_model null. -/
theorem C2_heuristic_fallback (data : Dict)
    (outcome : Option (Except String Rat))
    (h : outcome = Option.none ∨ ∃ e, outcome = some (Except.error e)) :
    (predict data outcome).status = 200 ∧
    (predict data outcome).used_model = Option.none ∧
    predict data outcome = heuristicVerdict data := by
  have hm : modelProbOf outcome = Option.none := by
    rcases h with h | ⟨e, h⟩ <;> subst h <;> rfl
  have hp : predict data outcome = heuristicVerdict data := by
    unfold predict
    rw [hm]
  exact ⟨by rw [hp]; rfl, by rw [hp]; rfl, hp⟩

theorem C2_heuristic_fallback_witness :
    (predict [] Option.none).status = 200 ∧
    (predict [] Option.none).used_model = Option.none ∧
    predict [] Option.none = heuristicVerdict [] :=
  C2_heuristic_fallback [] Option.none (Or.inl rfl)


theorem rhe_intCast (n : Int) : rhe ((n : Int) : Rat) = n := by
  simp only [rhe, ratFloor_eq_floor, Int.floor_intCast]
  norm_num

/-- C8: the heuristic probability is the clamp of the sum of the
contributions, no contribution being individually clamped; at the maxed-out
input below the reported contributions sum to 1.55 while the probability is
clamped to 1. -/
theorem C8_clamp_only_final_sum :
    (∀ (age fever : Int) (temp_c : Rat)
      (pulse pallor bruises wloss fatigue nsweats infections bone : Int),
      (rule_based_prob age fever temp_c pulse pallor bruises wloss
          fatigue nsweats infections bone).1 =
        clamp01 ((rule_based_prob age fever temp_c pulse pallor bruises wloss
          fatigue nsweats infections bone).2.total)) ∧
    ((rule_based_prob 5 1 (402/10) 130 1 1 1 0 0 0 1).2.total > 1 ∧
     (rule_based_prob 5 1 (402/10) 130 1 1 1 0 0 0 1).1 = 1) := by
  refine ⟨fun _ _ _ _ _ _ _ _ _ _ _ => rfl, ?_, ?_⟩
  · norm_num [rule_based_prob, rule_based_contrib, Contrib.total,
      temp_component, pulse_component]
  · norm_num [rule_based_prob, rule_based_contrib, Contrib.total,
      temp_component, pulse_component, clamp01]

/-- Concrete scenario 1 of the spec: age 8, pulse 90, all symptom flags 0. -/
def scenario1 : Dict :=
  [("age", PyVal.pint 8), ("pulse", PyVal.pint 90), ("fever", PyVal.pint 0),
   ("pallor", PyVal.pint 0), ("bruises", PyVal.pint 0), ("weight_loss", PyVal.pint 0)]

theorem heurContrib_scenario1 :
    heurContrib scenario1 = rule_based_contrib 8 0 0 90 0 0 0 0 0 0 0 := rfl

/-- C9 counterexample: at the scenario-1 input the pulse contribution is
0.05, not zero, and the young-age bonus is zero (age 8 exceeds the
threshold 6), refuting the claim that the probability consists only of the
young-age bonus with zero pulse contribution. -/
theorem C9_scenario1_counterexample :
    (heurContrib scenario1).pulse = 5/100 ∧
    ¬ (heurContrib scenario1).pulse = 0 ∧
    (heurContrib scenario1).young_age = 0 := by
  refine ⟨rfl, ?_, rfl⟩
  rw [heurContrib_scenario1]
  norm_num [rule_based_contrib, pulse_component]

/-- C9 (amended): at the scenario-1 input the probability consists only of
the pulse contribution 0.05 — the young-age bonus is zero because age 8 is
above the threshold 6, and the temperature contribution is zero — and the
label is Low. -/
theorem C9_scenario1_amended :
    (heurContrib scenario1).pulse = 5/100 ∧
    (heurContrib scenario1).young_age = 0 ∧
    (heurContrib scenario1).temperature = 0 ∧
    (heurContrib scenario1).total = (heurContrib scenario1).pulse ∧
    (predict scenario1 Option.none).risk = 5/100 ∧
    (predict scenario1 Option.none).class_name = "Low" := by
  have htot : (heurContrib scenario1).total = 5/100 := by
    rw [heurContrib_scenario1]
    norm_num [rule_based_contrib, Contrib.total, temp_component, pulse_component]
  have hclamp : clamp01 ((heurContrib scenario1).total) = 5/100 := by
    rw [htot]; norm_num [clamp01]
  refine ⟨rfl, rfl, rfl, by rw [htot]; rfl, ?_, ?_⟩
  · have hr : (predict scenario1 Option.none).risk =
        round4 (clamp01 (heurContrib scenario1).total) := rfl
    rw [hr, hclamp]
    have h5 : (5:Rat)/100 * 10000 = ((500 : Int) : Rat) := by norm_num
    rw [round4, h5, rhe_intCast]
    norm_num
  · have hc : (predict scenario1 Option.none).class_name =
        grade (clamp01 (heurContrib scenario1).total) := rfl
    rw [hc, hclamp]
    norm_num [grade]

end OncoSense
